import Mathlib

/-!
# Verification of the `noised` procedural weather-audio engine

Shallow embedding of the synthesis core of the `noised` TypeScript library:
the parameter-modulation engine (`RandParam` / `OscParam` evaluation), the
Kellet pink-noise filter, the raindrop grain builder, the thunder strike
voice spawner, the generator start/stop state machines, the partial parameter
update of `BaseGenerator`, and the WAV (RIFF/PCM16) encoder.

Floating-point sample values are modelled as exact rationals (the arithmetic
involved — affine combinations, clamping, truncation — is expressible
exactly); `Math.sin` / `Math.pow` are abstracted as function parameters so
theorems can instantiate them with the real `sin` / `rpow`, and uniform
random draws are passed in explicitly as inputs.
-/

namespace Noised

/-! ## Parameter kinds (src/types/RandParam.ts, src/V2/types) -/

/-- Structure `RandParam { value, rand, dist }` — a base value with optional per-use
uniform jitter. -/
structure RandParam where
  value : ℚ
  rand : Bool
  dist : ℚ
  deriving DecidableEq

/-- Structure `OscParam { value, osc, amp, freq }` over the reals (its consumers feed it
through `Math.sin`). -/
structure OscParamR where
  value : ℝ
  osc : Bool
  amp : ℝ
  freq : ℝ

/-! ## RandParam evaluation

V1 `ThunderGenerator` evaluates every `RandParam` inline with the pattern

    this.params.x?.value
        ? this.params.x.rand
            ? this.params.x.value + (Math.random() * this.params.x.dist)
            : this.params.x.value
        : fallback

where `fallback` is a per-call-site constant (e.g. `0.2` for `rumbleVolume`,
`1` for `burstCount`).  The outer condition is JavaScript truthiness of
`value`, so a base value of `0` selects the fallback.  `u` is the
`Math.random()` draw, `u ∈ [0,1)`. -/

/-- V1 inline `RandParam` evaluation (`ThunderGenerator.triggerThunder` /
`_playSingleBurst`): truthiness test on `value`, then `value + u·dist` when
`rand` is set, the call-site fallback when `value = 0`. -/
def evalRandV1 (p : RandParam) (fallback : ℚ) (u : ℚ) : ℚ :=
  if p.value ≠ 0 then
    (if p.rand then p.value + u * p.dist else p.value)
  else fallback

/-- V2 `ThunderGenerator.rand`:
`rand ? randomBetween(value - dist, value + dist) : value` with
`randomBetween(min, max) = min + u·(max - min)`. -/
def evalRandV2 (p : RandParam) (u : ℚ) : ℚ :=
  if p.rand then
    (p.value - p.dist) + u * ((p.value + p.dist) - (p.value - p.dist))
  else p.value

/-! ## OscParam evaluation -/

/-- V2 `RainGenerator.applyOsc`: computes
`modulated = value + sin(time · freq · 2π) · amp` and stores it back into
the parameter (the `osc` flag is never consulted). `sine` abstracts
`Math.sin`, `piv` abstracts `Math.PI`. -/
def applyOscV2 (sine : ℝ → ℝ) (piv : ℝ) (p : OscParamR) (time : ℝ) :
    OscParamR :=
  { p with value := p.value + sine (time * p.freq * 2 * piv) * p.amp }

/-- V1 `RainGenerator.setOscParam`: the target `AudioParam` is set to
`param.value`; an LFO adding `amp · sin(2π · freq · t)` is attached only when
`running && param.osc`.  This is the effective target value at phase
argument `t`. -/
def effOscV1 (sine : ℝ → ℝ) (p : OscParamR) (running : Bool) (t : ℝ) : ℝ :=
  p.value + (if running && p.osc then sine (t * p.freq) * p.amp else 0)

/-! ## Pink noise (Paul Kellet filter)

V1 `RainGenerator._startNoise` and V2 `RainGenerator.createNoiseBuffer`
both run the same per-sample recurrence over i.i.d. white samples
`white = Math.random() * 2 - 1`, with filter state `b0..b6` initialised
to zero. -/

/-- The seven Kellet filter state variables `b0..b6`. -/
structure PinkState where
  b0 : ℚ
  b1 : ℚ
  b2 : ℚ
  b3 : ℚ
  b4 : ℚ
  b5 : ℚ
  b6 : ℚ
  deriving DecidableEq

/-- Zero-initialised filter state (`let b0 = 0, b1 = 0, ...`). -/
def pinkInit : PinkState := ⟨0, 0, 0, 0, 0, 0, 0⟩

/-- One iteration of the V1 `_startNoise` pink loop:
update `b0..b5`, write `output[i] = b0+...+b6+white*0.5362`,
multiply `output[i] *= 0.11`, then set `b6 = white * 0.115926`. -/
def pinkStepV1 (s : PinkState) (white : ℚ) : PinkState × ℚ :=
  let b0 := 0.99886 * s.b0 + white * 0.0555179
  let b1 := 0.99332 * s.b1 + white * 0.0750759
  let b2 := 0.969 * s.b2 + white * 0.153852
  let b3 := 0.8665 * s.b3 + white * 0.3104856
  let b4 := 0.55 * s.b4 + white * 0.5329522
  let b5 := -0.7616 * s.b5 - white * 0.016898
  let out := b0 + b1 + b2 + b3 + b4 + b5 + s.b6 + white * 0.5362
  let out := out * 0.11
  let b6 := white * 0.115926
  (⟨b0, b1, b2, b3, b4, b5, b6⟩, out)

/-- One iteration of the V2 `createNoiseBuffer` pink loop:
update `b0..b5`, compute `pink = b0+...+b6+white*0.5362`, set
`b6 = white * 0.115926`, then write `data[i] = pink * 0.11`. -/
def pinkStepV2 (s : PinkState) (white : ℚ) : PinkState × ℚ :=
  let b0 := 0.99886 * s.b0 + white * 0.0555179
  let b1 := 0.99332 * s.b1 + white * 0.0750759
  let b2 := 0.96900 * s.b2 + white * 0.1538520
  let b3 := 0.86650 * s.b3 + white * 0.3104856
  let b4 := 0.55000 * s.b4 + white * 0.5329522
  let b5 := -0.7616 * s.b5 - white * 0.0168980
  let pink := b0 + b1 + b2 + b3 + b4 + b5 + s.b6 + white * 0.5362
  let b6 := white * 0.115926
  (⟨b0, b1, b2, b3, b4, b5, b6⟩, pink * 0.11)

/-- The Kellet recurrence exactly as the specification states it:
`b0 = 0.99886·b0 + w·0.0555179`, …, `b5 = -0.7616·b5 - w·0.016898`,
`output = (b0+b1+b2+b3+b4+b5+b6+w·0.5362)·0.11`, then `b6 = w·0.115926`. -/
def kelletSpecStep (s : PinkState) (w : ℚ) : PinkState × ℚ :=
  let b0 := 0.99886 * s.b0 + w * 0.0555179
  let b1 := 0.99332 * s.b1 + w * 0.0750759
  let b2 := 0.969 * s.b2 + w * 0.153852
  let b3 := 0.8665 * s.b3 + w * 0.3104856
  let b4 := 0.55 * s.b4 + w * 0.5329522
  let b5 := -0.7616 * s.b5 - w * 0.016898
  let output := (b0 + b1 + b2 + b3 + b4 + b5 + s.b6 + w * 0.5362) * 0.11
  let b6 := w * 0.115926
  (⟨b0, b1, b2, b3, b4, b5, b6⟩, output)

/-- Run a stateful per-sample filter over a list of white samples, collecting
the outputs. -/
def runFilter (step : PinkState → ℚ → PinkState × ℚ) :
    PinkState → List ℚ → List ℚ
  | _, [] => []
  | s, w :: ws =>
      let r := step s w
      r.2 :: runFilter step r.1 ws

/-- White sample from a unit uniform draw: `Math.random() * 2 - 1`. -/
def whiteFromUnit (r : ℚ) : ℚ := r * 2 - 1

/-! ## Thunder strike voice spawning

Both `triggerThunder` implementations run
`for (let i = 0; i < burstCount; i++)` with a floating-point `burstCount`:
the loop body executes for every natural number `i` with `i < burstCount`,
i.e. `⌈burstCount⌉` times when `burstCount > 0` and `0` times otherwise. -/

/-- Number of iterations of the JS counted loop
`for (let i = 0; i < bound; i++)` with a (possibly fractional) real bound. -/
def jsLoopCount (bound : ℚ) : ℕ := Int.toNat ⌈bound⌉

/-- Ephemeral voice kinds spawned by one thunder strike. -/
inductive Voice where
  | rumble
  | burst
  | cracklePop
  deriving DecidableEq

/-- Number of voices of kind `v` in a spawn list. -/
def countVoices (l : List Voice) (v : Voice) : ℕ := l.count v

/-- Voices spawned by V1 `ThunderGenerator.triggerThunder` for one strike,
given the already-evaluated `burstCount`: one rumble oscillator voice, then
one `_playSingleBurst` per loop iteration. -/
def triggerThunderVoicesV1 (burstCount : ℚ) : List Voice :=
  Voice.rumble :: List.replicate (jsLoopCount burstCount) Voice.burst

/-- Voices spawned by V2 `ThunderGenerator.triggerThunder` for one strike:
`count = rand(burstCount)` bursts via `scheduleBurst`, then one
`scheduleRumble`, then `scheduleCrackle` fires
`Math.floor(rand(crackleAmount))` crackle pops. -/
def triggerThunderVoicesV2 (burstCount crackleAmount : ℚ) : List Voice :=
  List.replicate (jsLoopCount burstCount) Voice.burst
    ++ [Voice.rumble]
    ++ List.replicate (Int.toNat ⌊crackleAmount⌋) Voice.cracklePop

/-! ## Raindrop grain buffers

V1 `RainGenerator._startDrops` (per tick of the drop interval):

    const duration = Math.min(this.params.dropDecayTime, 0.2);
    const buffer = createBuffer(1, sampleRate * duration, sampleRate);
    for (i) { const fade = Math.pow(1 - i / data.length, 2.5);
              data[i] = (Math.random() * 2 - 1) * fade; }

V2 `RainGenerator.scheduleDrop`:

    const duration = this.params.const.drops.decayTime;
    const bufferSize = Math.floor(sampleRate * duration);
    for (i) { data[i] = Math.random() * 2 - 1; }

`pw` abstracts `Math.pow(·, 2.5)`, `ws i` is the white draw
`Math.random() * 2 - 1` used for sample `i`. -/

/-- Length in samples of a V1 drop grain buffer (buffer lengths are coerced
to integers by truncation). -/
def grainLenV1 (sampleRate decayTime : ℚ) : ℕ :=
  Int.toNat ⌊sampleRate * min decayTime 0.2⌋

/-- V1 drop grain buffer: white noise shaped by `(1 - i/length)^2.5`. -/
def grainV1 (pw : ℚ → ℚ) (sampleRate decayTime : ℚ) (ws : ℕ → ℚ) : List ℚ :=
  let len := grainLenV1 sampleRate decayTime
  (List.range len).map (fun i => ws i * pw (1 - (i : ℚ) / (len : ℚ)))

/-- Length in samples of a V2 drop noise buffer
(`Math.floor(sampleRate * duration)`). -/
def dropBufLenV2 (sampleRate decayTime : ℚ) : ℕ :=
  Int.toNat ⌊sampleRate * decayTime⌋

/-- V2 drop noise buffer: raw white samples, no baked-in envelope (the decay
is applied afterwards by an `exponentialRampToValueAtTime` gain ramp). -/
def dropBufV2 (sampleRate decayTime : ℚ) (ws : ℕ → ℚ) : List ℚ :=
  (List.range (dropBufLenV2 sampleRate decayTime)).map ws

/-! ## Generator lifecycle state machines

The fields below model exactly the mutable state that V1
`RainGenerator.start` / `stop` and V2 `RainGenerator.start` / `stop` touch.
Audio nodes are identified by allocation order: `nextId` counts
`createBufferSource()` calls, `playing` lists the started-and-not-stopped
looping noise sources. -/

/-- The six gain values V1 `RainGenerator.stop` zeroes
(`output`, `noiseGainNode`, `dropGainNode`, `dryDropGainNode`, `dryGain`,
`wetGain`). -/
structure RainV1Gains where
  output : ℚ
  noiseGain : ℚ
  dropGain : ℚ
  dryDropGain : ℚ
  dryGain : ℚ
  wetGain : ℚ
  deriving DecidableEq

/-- Mutable state of a V1 `RainGenerator` relevant to `start` / `stop`. -/
structure RainV1State where
  running : Bool
  noiseNode : Option ℕ
  nextId : ℕ
  playing : List ℕ
  dropInterval : Bool
  lfoIds : List String
  gains : RainV1Gains
  deriving DecidableEq

/-- V1 `RainGenerator` state as built by the constructor: not running, no
noise source, no drop interval, no LFOs, all gain nodes at the Web Audio
default of `1`. -/
def rainV1Init : RainV1State :=
  { running := false, noiseNode := none, nextId := 0, playing := [],
    dropInterval := false, lfoIds := [], gains := ⟨1, 1, 1, 1, 1, 1⟩ }

/-- V1 `RainGenerator._startNoise`: stop and discard the previous noise
source if any, then create, connect and start a fresh looping source. -/
def startNoiseV1 (s : RainV1State) : RainV1State :=
  let s :=
    match s.noiseNode with
    | some i =>
        { s with playing := s.playing.erase i, noiseNode := none }
    | none => s
  { s with
    noiseNode := some s.nextId
    nextId := s.nextId + 1
    playing := s.nextId :: s.playing }

/-- V1 `RainGenerator.start` restricted to the modelled state: early-return
when already running, otherwise set the gain levels from the parameters,
start the noise source (`setNoiseType` → `_startNoise`) and the drop
interval (`setDropRate` / `_startDrops`). -/
def rainV1Start (gainsFromParams : RainV1Gains) (s : RainV1State) :
    RainV1State :=
  if s.running then s
  else
    let s := { s with running := true, gains := gainsFromParams }
    let s := startNoiseV1 s
    { s with dropInterval := true }

/-- V1 `RainGenerator.stop`: clear the running flag, stop/discard the noise
source if present, clear the drop interval, stop all LFOs, and zero every
gain node. -/
def rainV1Stop (s : RainV1State) : RainV1State :=
  let s :=
    match s.noiseNode with
    | some i =>
        { s with playing := s.playing.erase i, noiseNode := none }
    | none => s
  { s with
    running := false
    dropInterval := false
    lfoIds := []
    gains := ⟨0, 0, 0, 0, 0, 0⟩ }

/-- Mutable state of a V2 `RainGenerator` relevant to `start` / `stop`. -/
structure RainV2State where
  noiseSource : Option ℕ
  nextId : ℕ
  playing : List ℕ
  dropInterval : ℚ
  deriving DecidableEq

/-- Fresh V2 `RainGenerator` state. -/
def rainV2Init : RainV2State :=
  { noiseSource := none, nextId := 0, playing := [], dropInterval := 0 }

/-- V2 `RainGenerator.start`: unconditionally create a fresh looping buffer
source, overwrite `this.noiseSource` with it, connect it and start it.  The
previous source — if one was already playing — is neither stopped nor
disconnected. -/
def rainV2Start (s : RainV2State) : RainV2State :=
  { s with
    noiseSource := some s.nextId
    nextId := s.nextId + 1
    playing := s.nextId :: s.playing }

/-- V2 `RainGenerator.stop`: stop and discard the currently referenced noise
source if any, and reset the drop accumulator. -/
def rainV2Stop (s : RainV2State) : RainV2State :=
  let s :=
    match s.noiseSource with
    | some i =>
        { s with playing := s.playing.erase i, noiseSource := none }
    | none => s
  { s with dropInterval := 0 }

/-- Mutable state of the V1 `NoiseDController` relevant to `stop`. -/
structure CtrlV1State where
  running : Bool
  rain : RainV1State
  thunderTimeout : Option ℕ
  deriving DecidableEq

/-- V1 `NoiseDController.stop`: clear the running flag, stop the rain
generator, and cancel the pending thunder timeout if any. -/
def ctrlV1Stop (c : CtrlV1State) : CtrlV1State :=
  { running := false, rain := rainV1Stop c.rain, thunderTimeout := none }

/-! ## `BaseGenerator.updateParams` (V2)

    Object.entries(newParams).forEach(([key, value]) => {
        if (key in this.params) { this.params[key] = value; }
    });

Parameter objects are modelled as association lists with string keys; a JS
object literal has no duplicate keys, so update lists carry a `Nodup`
hypothesis where it matters. -/

/-- Key lookup in a parameter object (`this.params[key]`). -/
def findParam {α : Type} (k : String) : List (String × α) → Option α
  | [] => none
  | (k', v) :: rest => if k = k' then some v else findParam k rest

/-- The JS membership test `key in this.params`. -/
def hasKey {α : Type} (k : String) (p : List (String × α)) : Bool :=
  (findParam k p).isSome

/-- Overwrite the value stored under an existing key
(`this.params[key] = value`). -/
def setKey {α : Type} (k : String) (v : α) (p : List (String × α)) :
    List (String × α) :=
  p.map (fun kv => if kv.1 = k then (kv.1, v) else kv)

/-- V2 `BaseGenerator.updateParams`: fold the entries of the partial update
over the current parameter object, overwriting only keys that already
exist. -/
def updateParams {α : Type} (p u : List (String × α)) : List (String × α) :=
  u.foldl (fun acc kv => if hasKey kv.1 acc then setKey kv.1 kv.2 acc else acc) p

/-! ## WAV encoding (`NoiseDController._bufferToWavBlob`)

An `AudioBuffer` is modelled as a list of channels, each a list of `n`
float samples.  The encoder allocates `length = n · channels · 2 + 44`
bytes, writes the RIFF/fmt/data headers, then fills a scratch
`Float32Array` of size `n · channels` via

    for (let ch = 0; ch < numOfChan; ch++) {
        buffer.copyFromChannel(interleaved.subarray(ch, interleaved.length), ch);
    }

`copyFromChannel` copies a channel **contiguously** from the start of the
destination view, so channel `ch` lands at indices `ch, ch+1, …, ch+n-1`,
each channel overwriting most of the previous one — not an interleave.
Finally every sample is clamped to `[-1,1]`, scaled by `0x8000` (negative)
or `0x7FFF` (non-negative) and stored through an `Int16Array` (which
truncates toward zero). -/

/-- Total encoded file size in bytes:
`buffer.length * numOfChan * 2 + 44`. -/
def wavTotalLength (n ch : ℕ) : ℕ := n * ch * 2 + 44

/-- The `RIFF` chunk-size header field: `writeUint32(length - 8)`. -/
def wavRiffSizeField (n ch : ℕ) : ℕ := wavTotalLength n ch - 8

/-- The `data` chunk-size header field: written at byte offset 40 as
`writeUint32(length - offset - 4)`. -/
def wavDataSizeField (n ch : ℕ) : ℕ := wavTotalLength n ch - 40 - 4

/-- Write the elements of `src` into `arr` starting at index `start`
(`TypedArray.set` semantics: writes beyond the destination length are
clamped away, which `List.set` gives for free). -/
def writeAt {α : Type} (arr : List α) (start : ℕ) (src : List α) : List α :=
  (src.foldl (fun (acc : List α × ℕ) x => (acc.1.set acc.2 x, acc.2 + 1))
    (arr, start)).1

/-- The scratch `Float32Array` after the `copyFromChannel` loop: zeros of
size `n · channels`, each channel `ch` then copied contiguously starting at
offset `ch`. -/
def copyChannelsLoop (channels : List (List ℚ)) (n : ℕ) : List ℚ :=
  (List.range channels.length).foldl
    (fun arr ch => writeAt arr ch (channels.getD ch []))
    (List.replicate (n * channels.length) 0)

/-- Truncation toward zero, as JavaScript's ToInteger applies to a float
stored into an `Int16Array`. -/
def truncQ (q : ℚ) : ℤ := if q < 0 then ⌈q⌉ else ⌊q⌋

/-- One sample through the PCM16 conversion:
`s = max(-1, min(1, x)); output = s < 0 ? s * 0x8000 : s * 0x7FFF`,
stored into an `Int16Array` (truncate toward zero, wrap modulo 2¹⁶ into
`[-2¹⁵, 2¹⁵)`). -/
def toInt16Sample (x : ℚ) : ℤ :=
  let s := max (-1) (min 1 x)
  let v := truncQ (if s < 0 then s * 0x8000 else s * 0x7FFF)
  ((v + 0x8000) % 0x10000) - 0x8000

/-- The sample words of the encoder's `data` chunk, in order. -/
def wavDataChunk (channels : List (List ℚ)) (n : ℕ) : List ℤ :=
  (copyChannelsLoop channels n).map toInt16Sample

/-- Little-endian byte pair of a 16-bit sample word. -/
def int16BytesLE (v : ℤ) : List ℕ :=
  let u := (v % 0x10000).toNat
  [u % 256, u / 256]

/-- The byte contents of the encoder's `data` chunk. -/
def wavDataChunkBytes (channels : List (List ℚ)) (n : ℕ) : List ℕ :=
  ((wavDataChunk channels n).map int16BytesLE).flatten

/-- True frame interleaving, as the WAV `data` chunk is specified to be
laid out: frame `i` holds sample `i` of each channel in channel order. -/
def interleaveSpec (channels : List (List ℚ)) (n : ℕ) : List ℚ :=
  ((List.range n).map (fun i => channels.map (fun c => c.getD i 0))).flatten

/-- The specification's `round`, as in "Emit `round(burstCount)` bursts":
JavaScript `Math.round`, i.e. `⌊x + 1/2⌋`. -/
def specRound (q : ℚ) : ℤ := ⌊q + 1 / 2⌋

/-! # Theorems -/

/-- C1: the claim states that with `rand = false` every V1/V2 `RandParam`
evaluation returns exactly `value`, *including* `value = 0`.  V1's inline
evaluation tests JavaScript truthiness of `value`, so a disabled parameter
with base value `0` returns the call-site fallback instead (here
`rumbleVolume`'s fallback `0.2`); V2's `rand` does return `0`.  This theorem
evaluates the code at that failing input. -/
theorem evalRandV1_zero_value_falls_back (u : ℚ) :
    evalRandV1 ⟨0, false, 1 / 10⟩ (2 / 10) u = 2 / 10
    ∧ (2 / 10 : ℚ) ≠ 0
    ∧ evalRandV2 ⟨0, false, 1 / 10⟩ u = 0 := by
  refine ⟨?_, by norm_num, ?_⟩ <;> simp [evalRandV1, evalRandV2]

/-- C2: the claim states that a disabled (`osc = false`) `OscParam` is left
at exactly `value` on every tick.  V2 `RainGenerator.applyOsc` never reads
the `osc` flag: at engine time `t = 2.5 s` with the default
`noiseFilterFreq = { value: 4000, osc: false, amp: 1000, freq: 0.1 }` the
sine argument is `2.5 · 0.1 · 2π = π/2`, so the parameter is rewritten to
`4000 + sin(π/2) · 1000 = 5000 ≠ 4000`. -/
theorem applyOscV2_ignores_disabled_flag :
    (OscParamR.mk 4000 false 1000 (1 / 10)).osc = false
    ∧ (applyOscV2 Real.sin Real.pi (OscParamR.mk 4000 false 1000 (1 / 10))
        (5 / 2)).value = 5000
    ∧ (5000 : ℝ) ≠ 4000 := by
  refine ⟨rfl, ?_, by norm_num⟩
  show (4000 : ℝ) + Real.sin ((5 : ℝ) / 2 * (1 / 10) * 2 * Real.pi) * 1000 = 5000
  have h : (5 : ℝ) / 2 * (1 / 10) * 2 * Real.pi = Real.pi / 2 := by ring
  rw [h, Real.sin_pi_div_two]
  norm_num

/-- V1 `setOscParam` honours the flag: with `osc = false` the effective
target value is exactly the base value, for every engine time, running
state and sine implementation. -/
theorem effOscV1_disabled (v a f : ℝ) (sine : ℝ → ℝ) (r : Bool) (t : ℝ) :
    effOscV1 sine ⟨v, false, a, f⟩ r t = v := by
  simp [effOscV1]

/-- C4: the V1 and V2 pink-noise loops both compute exactly the Kellet
recurrence the specification states — state `b0..b6` initialised to zero,
`b0 = 0.99886·b0 + w·0.0555179`, …, `b5 = -0.7616·b5 - w·0.016898`,
output `(b0+b1+b2+b3+b4+b5+b6+w·0.5362)·0.11`, then `b6 = w·0.115926` —
sample by sample, for every white input sequence. -/
theorem pinkNoise_is_kellet_recurrence (ws : List ℚ) :
    runFilter pinkStepV1 pinkInit ws = runFilter kelletSpecStep pinkInit ws
    ∧ runFilter pinkStepV2 pinkInit ws = runFilter kelletSpecStep pinkInit ws := by
  have h1 : pinkStepV1 = kelletSpecStep := by
    funext s w
    simp only [pinkStepV1, kelletSpecStep]
  have h2 : pinkStepV2 = kelletSpecStep := by
    funext s w
    simp only [pinkStepV2, kelletSpecStep]
    norm_num
  rw [h1, h2]
  exact ⟨rfl, rfl⟩

/-- C5 counterexample: the claim says a strike spawns `round(b)` bursts and
that any evaluated `burstCount` `b < 1` spawns zero bursts.  The JS loop
`for (let i = 0; i < burstCount; i++)` actually runs `⌈b⌉` times:
`b = 1/2 < 1` spawns one burst, not zero, and `b = 6/5` spawns two bursts
while `round(6/5) = 1`. -/
theorem thunder_burst_round_counterexample :
    countVoices (triggerThunderVoicesV1 (1 / 2)) Voice.burst = 1
    ∧ (1 / 2 : ℚ) < 1
    ∧ (1 : ℕ) ≠ 0
    ∧ countVoices (triggerThunderVoicesV1 (6 / 5)) Voice.burst = 2
    ∧ specRound (6 / 5) = 1
    ∧ (2 : ℕ) ≠ 1 := by
  have hc1 : jsLoopCount (1 / 2) = 1 := by
    rw [jsLoopCount, show ⌈(1 / 2 : ℚ)⌉ = 1 by rw [Int.ceil_eq_iff]; norm_num]
    rfl
  have hc2 : jsLoopCount (6 / 5) = 2 := by
    rw [jsLoopCount, show ⌈(6 / 5 : ℚ)⌉ = 2 by rw [Int.ceil_eq_iff]; norm_num]
    rfl
  have l1 : triggerThunderVoicesV1 (1 / 2) = [Voice.rumble, Voice.burst] := by
    rw [triggerThunderVoicesV1, hc1]
    rfl
  have l2 : triggerThunderVoicesV1 (6 / 5) =
      [Voice.rumble, Voice.burst, Voice.burst] := by
    rw [triggerThunderVoicesV1, hc2]
    rfl
  have hr : specRound (6 / 5) = 1 := by rw [specRound]; norm_num
  exact ⟨by rw [l1]; rfl, by norm_num, by decide, by rw [l2]; rfl, hr, by decide⟩

/-- C5 amended: a fired strike spawns `⌈b⌉` burst voices when the evaluated
`burstCount` is `b > 0` and none when `b ≤ 0` (the iteration count of the JS
loop `for (i = 0; i < b; i++)`), in both V1 and V2, while exactly one rumble
voice fires regardless. -/
theorem thunder_burst_count_is_ceil (b c : ℚ) :
    countVoices (triggerThunderVoicesV1 b) Voice.burst = Int.toNat ⌈b⌉
    ∧ countVoices (triggerThunderVoicesV1 b) Voice.rumble = 1
    ∧ countVoices (triggerThunderVoicesV2 b c) Voice.burst = Int.toNat ⌈b⌉
    ∧ countVoices (triggerThunderVoicesV2 b c) Voice.rumble = 1
    ∧ (∀ i : ℕ, i < jsLoopCount b ↔ (i : ℚ) < b)
    ∧ (b ≤ 0 → countVoices (triggerThunderVoicesV1 b) Voice.burst = 0) := by
  have e1 : (Voice.rumble == Voice.burst) = false := rfl
  have e2 : (Voice.rumble == Voice.rumble) = true := rfl
  have e3 : (Voice.burst == Voice.burst) = true := rfl
  have e4 : (Voice.burst == Voice.rumble) = false := rfl
  have e5 : (Voice.burst == Voice.cracklePop) = false := rfl
  have e6 : (Voice.rumble == Voice.cracklePop) = false := rfl
  refine ⟨?_, ?_, ?_, ?_, ?_, ?_⟩
  · simp [countVoices, triggerThunderVoicesV1, jsLoopCount,
      List.count_cons, List.count_replicate, e1, e3]
  · simp [countVoices, triggerThunderVoicesV1, jsLoopCount,
      List.count_cons, List.count_replicate, e2, e4]
  · simp [countVoices, triggerThunderVoicesV2, jsLoopCount,
      List.count_append, List.count_cons, List.count_replicate, e1, e3, e5]
  · simp [countVoices, triggerThunderVoicesV2, jsLoopCount,
      List.count_append, List.count_cons, List.count_replicate, e2, e4, e6]
  · intro i
    rw [jsLoopCount, Int.lt_toNat, Int.lt_ceil]
    push_cast
    exact Iff.rfl
  · intro hb
    have h0 : ⌈b⌉ ≤ 0 := Int.ceil_le.mpr (by exact_mod_cast hb)
    simp [countVoices, triggerThunderVoicesV1, jsLoopCount,
      List.count_cons, List.count_replicate, Int.toNat_of_nonpos h0, e1, e3]

/-- Witness for `thunder_burst_count_is_ceil` at `b = -2, c = 0`. -/
theorem thunder_burst_count_is_ceil_witness :
    ((-2 : ℚ) ≤ 0)
    ∧ countVoices (triggerThunderVoicesV1 (-2)) Voice.burst = 0 :=
  ⟨by norm_num, (thunder_burst_count_is_ceil (-2) 0).2.2.2.2.2 (by norm_num)⟩

/-- C6: with `burstCount = { value: 3, rand: false }`, the evaluated count
is `3` whatever the random draw, so a fired strike spawns exactly 3 burst
voices and exactly 1 rumble voice — in V1 (fallback `1` at the
`burstCount` call site) and in V2 (any `crackleAmount` jitter `c`). -/
theorem thunder_default_spawns_three_bursts (u₁ u₂ c : ℚ) :
    countVoices (triggerThunderVoicesV1 (evalRandV1 ⟨3, false, 1⟩ 1 u₁))
      Voice.burst = 3
    ∧ countVoices (triggerThunderVoicesV1 (evalRandV1 ⟨3, false, 1⟩ 1 u₁))
      Voice.rumble = 1
    ∧ countVoices (triggerThunderVoicesV2 (evalRandV2 ⟨3, false, 1⟩ u₂) c)
      Voice.burst = 3
    ∧ countVoices (triggerThunderVoicesV2 (evalRandV2 ⟨3, false, 1⟩ u₂) c)
      Voice.rumble = 1 := by
  have h1 : evalRandV1 ⟨3, false, 1⟩ 1 u₁ = 3 := by simp [evalRandV1]
  have h2 : evalRandV2 ⟨3, false, 1⟩ u₂ = 3 := by simp [evalRandV2]
  rw [h1, h2]
  have h3 : jsLoopCount 3 = 3 := by
    rw [jsLoopCount, show ⌈(3 : ℚ)⌉ = 3 by norm_num]
    rfl
  have e1 : (Voice.rumble == Voice.burst) = false := rfl
  have e2 : (Voice.rumble == Voice.rumble) = true := rfl
  have e3 : (Voice.burst == Voice.burst) = true := rfl
  have e4 : (Voice.burst == Voice.rumble) = false := rfl
  have e5 : (Voice.burst == Voice.cracklePop) = false := rfl
  have e6 : (Voice.rumble == Voice.cracklePop) = false := rfl
  refine ⟨?_, ?_, ?_, ?_⟩ <;>
    simp [countVoices, triggerThunderVoicesV1, triggerThunderVoicesV2, h3,
      List.count_cons, List.count_append, List.count_replicate,
      e1, e2, e3, e4, e5, e6]

/-- C8: V1 `RainGenerator.start` early-returns when already running, so a
second `start()` is the identity on the generator state; V2
`RainGenerator.start` has no such guard — called twice from a fresh state it
creates a second looping noise source while the first keeps playing, and
`stop()` only reaches the second one, leaving one orphaned looping source
still live. -/
theorem start_twice_leaks_noise_source_in_V2 (g : RainV1Gains)
    (s : RainV1State) :
    rainV1Start g (rainV1Start g s) = rainV1Start g s
    ∧ (rainV2Start rainV2Init).playing.length = 1
    ∧ (rainV2Start (rainV2Start rainV2Init)).playing.length = 2
    ∧ (rainV2Stop (rainV2Start (rainV2Start rainV2Init))).playing.length = 1 := by
  refine ⟨?_, by decide, by decide, by decide⟩
  by_cases h : s.running
  · have h1 : rainV1Start g s = s := by
      rw [rainV1Start, if_pos h]
    rw [h1, h1]
  · have h1 : (rainV1Start g s).running = true := by
      rw [rainV1Start, if_neg h]
      cases hn : s.noiseNode <;> simp [startNoiseV1, hn]
    rw [rainV1Start, if_pos h1]

/-- C9: `stop()` is idempotent — a second call finds the noise source,
interval, timeout and LFO map already cleared and reproduces exactly the
same state — for the V1 `RainGenerator`, the V1 `NoiseDController`, and the
V2 `RainGenerator`; and `stop()` before any `start()` is an ordinary total
transition (it merely zeroes the gain levels of the freshly constructed
generator). -/
theorem stop_twice_equals_stop_once (s : RainV1State) (c : CtrlV1State)
    (s2 : RainV2State) :
    rainV1Stop (rainV1Stop s) = rainV1Stop s
    ∧ ctrlV1Stop (ctrlV1Stop c) = ctrlV1Stop c
    ∧ rainV2Stop (rainV2Stop s2) = rainV2Stop s2
    ∧ rainV1Stop rainV1Init = { rainV1Init with gains := ⟨0, 0, 0, 0, 0, 0⟩ } := by
  have hv1 : ∀ t : RainV1State, rainV1Stop (rainV1Stop t) = rainV1Stop t := by
    intro t
    cases h : t.noiseNode <;> simp [rainV1Stop, h]
  refine ⟨hv1 s, ?_, ?_, by decide⟩
  · simp [ctrlV1Stop, hv1]
  · cases h : s2.noiseSource <;> simp [rainV2Stop, h]

/-- C7 counterexample: the claim describes every scheduler tick, but V2
`scheduleDrop` caps nothing at 0.2 s and bakes no envelope into the buffer.
With `sampleRate = 10` and `decayTime = 0.5` the V2 buffer holds 5 samples
where the claimed `min(decayTime, 0.2)` length is 2; and its sample at
index 4 is the raw white draw `1/2`, whereas the claimed envelope value is
`1/2 · (1 - 4/5)^2.5 ≠ 1/2`. -/
theorem dropBufV2_counterexample :
    dropBufLenV2 10 (1 / 2) = 5
    ∧ Int.toNat ⌊(10 : ℚ) * min (1 / 2) 0.2⌋ = 2
    ∧ (5 : ℕ) ≠ 2
    ∧ (dropBufV2 10 (1 / 2) fun _ => (1 : ℚ) / 2)[4]? = some (1 / 2)
    ∧ (1 / 2 : ℝ) ≠ 1 / 2 * ((1 - 4 / 5) ^ (5 / 2 : ℝ)) := by
  have hmin : min (1 / 2 : ℚ) 0.2 = 0.2 := min_eq_right (by norm_num)
  have hf2 : ⌊(10 : ℚ) * (0.2 : ℚ)⌋ = 2 := by norm_num
  have hf5 : ⌊(10 : ℚ) * (1 / 2 : ℚ)⌋ = 5 := by norm_num
  have hlen : dropBufLenV2 10 (1 / 2) = 5 := by
    rw [dropBufLenV2, hf5]
    rfl
  refine ⟨hlen, ?_, by decide, ?_, ?_⟩
  · rw [hmin, hf2]
    rfl
  · rw [dropBufV2, hlen]
    rfl
  · have hx : ((1 : ℝ) - 4 / 5) ^ (5 / 2 : ℝ) < 1 := by
      rw [show (1 : ℝ) - 4 / 5 = 1 / 5 by norm_num]
      exact Real.rpow_lt_one (by norm_num) (by norm_num) (by norm_num)
    have hlt : (1 : ℝ) / 2 * ((1 - 4 / 5) ^ (5 / 2 : ℝ)) < 1 / 2 := by
      nlinarith
    exact (ne_of_gt hlt)

/-- C7 amended: on every rain-scheduler tick, the V1 drop grain buffer has
`⌊sampleRate · min(dropDecayTime, 0.2)⌋` samples and its sample `i` is the
white draw times the envelope `(1 - i/length)^2.5`; the V2 drop buffer has
`⌊sampleRate · dropDecayTime⌋` samples (no 0.2 s cap) of raw white draws,
its decay being applied by an exponential gain ramp instead of a baked-in
envelope. -/
theorem drop_grain_buffer_shapes (pw : ℚ → ℚ) (rate d : ℚ) (ws : ℕ → ℚ) :
    (grainV1 pw rate d ws).length = grainLenV1 rate d
    ∧ (∀ i, i < grainLenV1 rate d →
        (grainV1 pw rate d ws)[i]? =
          some (ws i * pw (1 - (i : ℚ) / (grainLenV1 rate d : ℚ))))
    ∧ (dropBufV2 rate d ws).length = dropBufLenV2 rate d
    ∧ (∀ i, i < dropBufLenV2 rate d →
        (dropBufV2 rate d ws)[i]? = some (ws i)) := by
  refine ⟨by simp [grainV1], ?_, by simp [dropBufV2], ?_⟩
  · intro i hi
    simp [grainV1, List.getElem?_map, List.getElem?_range, hi]
  · intro i hi
    simp [dropBufV2, List.getElem?_map, List.getElem?_range, hi]

/-- Witness for `drop_grain_buffer_shapes` at
`pw = id, rate = 10, d = 1/2, ws = const 1, i ∈ {0, 4}`. -/
theorem drop_grain_buffer_shapes_witness :
    (grainV1 id 10 (1 / 2) fun _ => (1 : ℚ))[0]? = some 1
    ∧ (dropBufV2 10 (1 / 2) fun _ => (1 : ℚ))[4]? = some 1 := by
  have h := drop_grain_buffer_shapes id 10 (1 / 2) fun _ => (1 : ℚ)
  have hmin : min (1 / 2 : ℚ) 0.2 = 0.2 := min_eq_right (by norm_num)
  have hlen1 : grainLenV1 10 (1 / 2) = 2 := by
    rw [grainLenV1, hmin, show ⌊(10 : ℚ) * (0.2 : ℚ)⌋ = 2 by norm_num]
    rfl
  have hlen2 : dropBufLenV2 10 (1 / 2) = 5 := by
    rw [dropBufLenV2, show ⌊(10 : ℚ) * (1 / 2 : ℚ)⌋ = 5 by norm_num]
    rfl
  constructor
  · have h0 := h.2.1 0 (by rw [hlen1]; norm_num)
    rw [h0, hlen1]
    norm_num
  · have h4 := h.2.2.2 4 (by rw [hlen2]; norm_num)
    rw [h4]

/-- C3: the header size fields are as claimed (`RIFF` field = total − 8,
`data` field = `length·channels·2`), the PCM16 scaling maps `1.0 → 0x7FFF`
and `-1.0 → 0x8000` (little-endian bytes `FF 7F` / `00 80`), and an all-zero
input yields an all-zero data chunk of `length·channels·2` bytes — but the
data chunk is *not* the channel-interleave: for the stereo buffer with
channels `[1,1]` and `[0,0]`, the overlapping `copyFromChannel` writes
produce `[0x7FFF, 0, 0, 0]` where interleaving gives
`[0x7FFF, 0, 0x7FFF, 0]`. -/
theorem wav_encoder_not_interleaved :
    (∀ n ch : ℕ, wavRiffSizeField n ch = wavTotalLength n ch - 8
      ∧ wavDataSizeField n ch = n * ch * 2)
    ∧ toInt16Sample 1 = 0x7FFF
    ∧ toInt16Sample (-1) = -0x8000
    ∧ int16BytesLE (toInt16Sample 1) = [0xFF, 0x7F]
    ∧ int16BytesLE (toInt16Sample (-1)) = [0x00, 0x80]
    ∧ wavDataChunkBytes [[0, 0, 0], [0, 0, 0]] 3 = List.replicate 12 0
    ∧ wavDataChunk [[1, 1], [0, 0]] 2 = [0x7FFF, 0, 0, 0]
    ∧ (interleaveSpec [[1, 1], [0, 0]] 2).map toInt16Sample
        = [0x7FFF, 0, 0x7FFF, 0]
    ∧ wavDataChunk [[1, 1], [0, 0]] 2
        ≠ (interleaveSpec [[1, 1], [0, 0]] 2).map toInt16Sample := by
  have t0 : toInt16Sample 0 = 0 := by norm_num [toInt16Sample, truncQ]
  have t1 : toInt16Sample 1 = 32767 := by norm_num [toInt16Sample, truncQ]
  have tm1 : toInt16Sample (-1) = -32768 := by
    have hc : ⌈(-32768 : ℚ)⌉ = -32768 := by
      rw [show ((-32768 : ℚ)) = ((-32768 : ℤ) : ℚ) by norm_num]
      exact Int.ceil_intCast _
    norm_num [toInt16Sample, truncQ, hc]
  have hc1 : copyChannelsLoop [[1, 1], [0, 0]] 2 = [1, 0, 0, 0] := by decide
  have hc0 : copyChannelsLoop [[0, 0, 0], [0, 0, 0]] 3 = List.replicate 6 0 := by
    decide
  have hi : interleaveSpec [[1, 1], [0, 0]] 2 = [1, 0, 1, 0] := by decide
  have chunk1 : wavDataChunk [[1, 1], [0, 0]] 2 = [32767, 0, 0, 0] := by
    rw [wavDataChunk, hc1]
    simp [t0, t1]
  have ichunk : (interleaveSpec [[1, 1], [0, 0]] 2).map toInt16Sample
      = [32767, 0, 32767, 0] := by
    rw [hi]
    simp [t0, t1]
  refine ⟨?_, t1, tm1, by rw [t1]; decide, by rw [tm1]; decide, ?_,
    chunk1, ichunk, ?_⟩
  · intro n ch
    refine ⟨rfl, ?_⟩
    rw [wavDataSizeField, wavTotalLength]
    omega
  · rw [wavDataChunkBytes, wavDataChunk, hc0, List.map_replicate, t0,
      List.map_replicate]
    decide
  · rw [chunk1, ichunk]
    decide

/-- Lookup `findParam` is `none` exactly on the keys absent from the object. -/
theorem findParam_eq_none_iff {α : Type} (k : String) (p : List (String × α)) :
    findParam k p = none ↔ k ∉ p.map Prod.fst := by
  induction p with
  | nil => simp [findParam]
  | cons kv rest ih =>
      by_cases h : k = kv.1
      · simp [findParam, h]
      · simp [findParam, h, ih]

/-- Writing through `setKey` never changes the key set. -/
theorem setKey_map_fst {α : Type} (k : String) (v : α)
    (p : List (String × α)) : (setKey k v p).map Prod.fst = p.map Prod.fst := by
  induction p with
  | nil => rfl
  | cons kv rest ih =>
      obtain ⟨k0, v0⟩ := kv
      show ((if k0 = k then (k0, v) else (k0, v0)) :: setKey k v rest).map
          Prod.fst = k0 :: rest.map Prod.fst
      by_cases hk : k0 = k
      · rw [if_pos hk]
        show k0 :: (setKey k v rest).map Prod.fst = k0 :: rest.map Prod.fst
        rw [ih]
      · rw [if_neg hk]
        show k0 :: (setKey k v rest).map Prod.fst = k0 :: rest.map Prod.fst
        rw [ih]

/-- Writing through `setKey` at a different key leaves a lookup unchanged. -/
theorem findParam_setKey_ne {α : Type} {k k' : String} (v : α)
    (p : List (String × α)) (h : k ≠ k') :
    findParam k (setKey k' v p) = findParam k p := by
  induction p with
  | nil => rfl
  | cons kv rest ih =>
      obtain ⟨k0, v0⟩ := kv
      show findParam k
          ((if k0 = k' then (k0, v) else (k0, v0)) :: setKey k' v rest)
          = findParam k ((k0, v0) :: rest)
      by_cases hk : k0 = k'
      · rw [if_pos hk]
        show (if k = k0 then some v else findParam k (setKey k' v rest))
            = if k = k0 then some v0 else findParam k rest
        have hne : ¬k = k0 := fun he => h (he.trans hk)
        rw [if_neg hne, if_neg hne, ih]
      · rw [if_neg hk]
        show (if k = k0 then some v0 else findParam k (setKey k' v rest))
            = if k = k0 then some v0 else findParam k rest
        rw [ih]

/-- Writing through `setKey` overwrites a present key. -/
theorem findParam_setKey_self {α : Type} {k : String} (v : α)
    (p : List (String × α)) (h : (findParam k p).isSome) :
    findParam k (setKey k v p) = some v := by
  induction p with
  | nil => simp [findParam] at h
  | cons kv rest ih =>
      obtain ⟨k0, v0⟩ := kv
      show findParam k
          ((if k0 = k then (k0, v) else (k0, v0)) :: setKey k v rest) = some v
      by_cases hk : k0 = k
      · rw [if_pos hk]
        show (if k = k0 then some v else findParam k (setKey k v rest))
            = some v
        rw [if_pos hk.symm]
      · rw [if_neg hk]
        have hk2 : ¬k = k0 := fun he => hk he.symm
        show (if k = k0 then some v0 else findParam k (setKey k v rest))
            = some v
        rw [if_neg hk2]
        apply ih
        have h' : (if k = k0 then some v0 else findParam k rest).isSome := h
        rwa [if_neg hk2] at h'

/-- Unfolding `updateParams` one update entry at a time. -/
theorem updateParams_cons {α : Type} (p : List (String × α))
    (kv : String × α) (u : List (String × α)) :
    updateParams p (kv :: u)
      = updateParams (if hasKey kv.1 p then setKey kv.1 kv.2 p else p) u := rfl

/-- Updating through `updateParams` never changes the key set of the parameter object. -/
theorem updateParams_map_fst {α : Type} (p u : List (String × α)) :
    (updateParams p u).map Prod.fst = p.map Prod.fst := by
  induction u generalizing p with
  | nil => rfl
  | cons kv rest ih =>
      rw [updateParams_cons]
      by_cases h : hasKey kv.1 p
      · rw [if_pos h, ih, setKey_map_fst]
      · rw [if_neg h, ih]

/-- Keys not mentioned in the update keep their lookup. -/
theorem findParam_updateParams_notMentioned {α : Type} {k : String}
    (p u : List (String × α)) (h : k ∉ u.map Prod.fst) :
    findParam k (updateParams p u) = findParam k p := by
  induction u generalizing p with
  | nil => rfl
  | cons kv rest ih =>
      simp only [List.map_cons, List.mem_cons, not_or] at h
      rw [updateParams_cons]
      by_cases hk : hasKey kv.1 p
      · rw [if_pos hk, ih _ h.2, findParam_setKey_ne _ _ h.1]
      · rw [if_neg hk, ih _ h.2]

/-- C10: `BaseGenerator.updateParams` replaces exactly the entries whose
keys occur in the update and already exist in the current parameter object:
no key is ever added or removed, keys absent from the update keep their
value, an updated existing key takes the update's value, and keys unknown
to the object are silently ignored (lookup stays `none`). -/
theorem updateParams_replaces_only_existing_keys {α : Type} (p u : List (String × α))
    (k : String) (v : α) :
    ((updateParams p u).map Prod.fst = p.map Prod.fst)
    ∧ (k ∉ u.map Prod.fst →
        findParam k (updateParams p u) = findParam k p)
    ∧ ((u.map Prod.fst).Nodup → (k, v) ∈ u → (findParam k p).isSome →
        findParam k (updateParams p u) = some v)
    ∧ (findParam k p = none → findParam k (updateParams p u) = none) := by
  refine ⟨updateParams_map_fst p u, findParam_updateParams_notMentioned p u,
    ?_, ?_⟩
  · intro hnd hmem hsome
    induction u generalizing p with
    | nil => simp at hmem
    | cons kv rest ih =>
        rw [updateParams_cons]
        rcases List.mem_cons.mp hmem with heq | htail
        · subst heq
          have hk : hasKey k p := by
            rw [hasKey, hsome]
          rw [if_pos hk]
          have hknotin : k ∉ rest.map Prod.fst := by
            simpa using (List.nodup_cons.mp hnd).1
          rw [findParam_updateParams_notMentioned _ _ hknotin]
          exact findParam_setKey_self v p hsome
        · have hne : k ≠ kv.1 := by
            intro he
            exact (List.nodup_cons.mp hnd).1
              (he ▸ List.mem_map.mpr ⟨(k, v), htail, rfl⟩)
          have hnd' : (rest.map Prod.fst).Nodup := (List.nodup_cons.mp hnd).2
          by_cases hk : hasKey kv.1 p
          · rw [if_pos hk]
            exact ih _ hnd' htail (by
              rwa [findParam_setKey_ne _ _ hne])
          · rw [if_neg hk]
            exact ih _ hnd' htail hsome
  · intro hnone
    have h1 : k ∉ p.map Prod.fst := (findParam_eq_none_iff k p).mp hnone
    have h2 : k ∉ (updateParams p u).map Prod.fst := by
      rwa [updateParams_map_fst]
    exact (findParam_eq_none_iff k _).mpr h2

/-- Witness for `updateParams_replaces_only_existing_keys` at
`p = [(a,1),(b,2)], u = [(b,5),(c,9)], k = b, v = 5`: the existing key `b`
takes the new value while the unknown key `c` is ignored. -/
theorem updateParams_replaces_only_existing_keys_witness :
    findParam "b" (updateParams [("a", 1), ("b", 2)] [("b", 5), ("c", 9)])
      = some 5
    ∧ findParam "c" (updateParams [("a", 1), ("b", 2)] [("b", 5), ("c", 9)])
      = none :=
  ⟨(updateParams_replaces_only_existing_keys [("a", 1), ("b", 2)] [("b", 5), ("c", 9)]
      "b" 5).2.2.1 (by decide) (by decide) (by decide),
   (updateParams_replaces_only_existing_keys [("a", 1), ("b", 2)] [("b", 5), ("c", 9)]
      "c" 9).2.2.2 (by decide)⟩

end Noised
